import Mathlib

/-!
Verification of the supplier-matching, dependency-graph and risk-scoring
pipeline of the supply-chain risk dashboard backend.

The Lean definitions below are shallow embeddings of the Python functions in
`backend/app/services/risk_calculator.py`, `backend/app/services/supplier_scoring.py`,
`backend/app/services/dependency_analyzer.py`, `backend/app/services/live_feeds.py`,
`backend/app/agents/risk_analyzer.py` and `backend/app/agents/supplier_matcher.py`.
Python floats are modelled by exact arithmetic (`ℚ` where the code only does
field arithmetic, `ℝ` where it calls trigonometric functions); the Python builtin
`round(x, 2)` (round half to even on the scaled value) is modelled by
`py_round2`; dictionary `.get` with a default is modelled by `Option.getD`;
Python truthiness of an optional numeric field (`None` and `0` are falsy) is
modelled by `otruthy`.
-/

/-- The Python builtin `round` rounds half to even.  `round_half_even x` is the
integer that one-argument `round` returns on the exact value `x`. -/
def round_half_even {α : Type} [LinearOrderedField α] [FloorRing α] (x : α) : ℤ :=
  if Int.fract x = 1/2 then (if 2 ∣ ⌊x⌋ then ⌊x⌋ else ⌊x⌋ + 1) else round x

/-- The Python builtin `round(x, 2)`, on the exact value `x`. -/
def py_round2 {α : Type} [LinearOrderedField α] [FloorRing α] (x : α) : α :=
  ((round_half_even (x * 100) : ℤ) : α) / 100

theorem round_half_even_intCast {α : Type} [LinearOrderedField α] [FloorRing α]
    (n : ℤ) : round_half_even (n : α) = n := by
  unfold round_half_even
  rw [Int.fract_intCast]
  have h : (0 : α) ≠ 1/2 := by norm_num
  rw [if_neg h, round_intCast]

theorem py_round2_intCast {α : Type} [LinearOrderedField α] [FloorRing α]
    (n : ℤ) : py_round2 (n : α) = n := by
  unfold py_round2
  have h : (n : α) * 100 = ((n * 100 : ℤ) : α) := by push_cast; ring
  rw [h, round_half_even_intCast]
  push_cast
  field_simp

theorem py_round2_natCast {α : Type} [LinearOrderedField α] [FloorRing α]
    (n : ℕ) : py_round2 (n : α) = n := by
  have h : ((n : ℤ) : α) = (n : α) := by push_cast; ring
  rw [← h, py_round2_intCast, h]

/-! ### Enumerations (`backend/app/models.py`) -/

/-- Enum `CriticalityLevel` from `app/models.py`. -/
inductive CriticalityLevel : Type
  | LOW
  | MEDIUM
  | HIGH
  | CRITICAL
deriving DecidableEq

/-- Enum `SupplierTier` from `app/models.py`. -/
inductive SupplierTier : Type
  | TIER_1
  | TIER_2
  | TIER_3
deriving DecidableEq

/-- The string value of a `CriticalityLevel` (`str`-valued enum in the source). -/
def crit_name : CriticalityLevel → String
  | .LOW => "Low"
  | .MEDIUM => "Medium"
  | .HIGH => "High"
  | .CRITICAL => "Critical"

/-- The integer value of a `SupplierTier` (`int`-valued enum in the source). -/
def tier_int : SupplierTier → ℤ
  | .TIER_1 => 1
  | .TIER_2 => 2
  | .TIER_3 => 3

/-! ### Per-supplier impact score, incident-analysis variant
(`app/services/risk_calculator.py`) -/

/-- Table `CRITICALITY_WEIGHTS` from `risk_calculator.py`. -/
def CRITICALITY_WEIGHTS : CriticalityLevel → ℚ
  | .LOW => 0.25
  | .MEDIUM => 0.50
  | .HIGH => 0.75
  | .CRITICAL => 1.0

/-- Table `TIER_MULTIPLIERS` from `risk_calculator.py`. -/
def TIER_MULTIPLIERS : SupplierTier → ℚ
  | .TIER_1 => 1.0
  | .TIER_2 => 0.7
  | .TIER_3 => 0.4

/-- Function `calculate_supplier_impact_score` from `risk_calculator.py`; the supplier
argument is replaced by the two fields the function reads (criticality, tier). -/
def calculate_supplier_impact_score (criticality : CriticalityLevel)
    (tier : SupplierTier) (severity_level : ℚ) (proximity_score : ℚ) : ℚ :=
  let severity_contribution := severity_level / 5 * 50
  let criticality_contribution := CRITICALITY_WEIGHTS criticality * 30
  let tier_contribution := TIER_MULTIPLIERS tier * 15
  let proximity_contribution := proximity_score * 5
  min 100 (severity_contribution + criticality_contribution +
    tier_contribution + proximity_contribution)

/-! ### Per-supplier impact score, alternate simplified variant
(`app/agents/risk_analyzer.py`, `analyze_risk`) -/

/-- The matched-supplier dictionary as read and written by
`RiskAnalyzerAgent.analyze_risk`: the four keys the scoring loop accesses,
each optional because the code reads them with `.get` and a default
(`impact_score` is absent until `analyze_risk` writes it). -/
structure RASupplierRec : Type where
  criticality : Option String
  tier : Option ℤ
  proximity_score : Option ℚ
  impact_score : Option ℚ
deriving DecidableEq

/-- The criticality-bonus dictionary lookup in `analyze_risk`
(the dict with Low 10, Medium 20, High 30, Critical 40, read with `.get(crit, 20)`). -/
def crit_bonus (crit : String) : ℚ :=
  if crit = "Low" then 10
  else if crit = "Medium" then 20
  else if crit = "High" then 30
  else if crit = "Critical" then 40
  else 20

/-- The tier-bonus dictionary lookup in `analyze_risk`
(`{1: 15, 2: 10, 3: 5}.get(tier, 10)`). -/
def tier_bonus (tier : ℤ) : ℚ :=
  if tier = 1 then 15
  else if tier = 2 then 10
  else if tier = 3 then 5
  else 10

/-- The per-supplier impact score `analyze_risk` writes into each matched
supplier: `round(min(100, base + crit_bonus + tier_bonus + proximity*10), 2)`. -/
def ra_impact_score (s : RASupplierRec) (severity_level : ℚ) : ℚ :=
  let base_score := severity_level / 5 * 50
  let cb := crit_bonus (s.criticality.getD "Medium")
  let tb := tier_bonus (s.tier.getD 1)
  let pb := s.proximity_score.getD 0.5 * 10
  py_round2 (min 100 (base_score + cb + tb + pb))

/-- The in-place update `analyze_risk` performs on its `affected_suppliers`
argument: every record gets `impact_score` written, then the list is sorted by
the impact score read with a `.get` default of 0, descending (a stable sort
with `reverse=True`).  The value of this function is the observable state of
the callers list after `analyze_risk` returns. -/
def ra_update_suppliers (affected_suppliers : List RASupplierRec)
    (severity_level : ℚ) : List RASupplierRec :=
  let scored := affected_suppliers.map
    (fun s => { s with impact_score := some (ra_impact_score s severity_level) })
  scored.mergeSort (fun a b => decide (b.impact_score.getD 0 ≤ a.impact_score.getD 0))

/-! ### Financial impact (`risk_calculator.calculate_financial_impact` and the
inline estimate in `risk_analyzer.analyze_risk`) -/

/-- The dictionary returned by both financial-impact estimators. -/
structure FinancialImpact : Type where
  daily_revenue_at_risk : ℚ
  estimated_resolution_days : ℚ
  total_estimated_loss : ℚ
  expedited_shipping_cost : ℚ
  alternative_sourcing_cost : ℚ
  total_mitigation_cost : ℚ
  net_impact : ℚ
deriving DecidableEq

/-- Function `calculate_financial_impact` from `risk_calculator.py` (default
`avg_order_value = 100000` is passed explicitly by callers of this model). -/
def calculate_financial_impact (affected_suppliers : List RASupplierRec)
    (avg_order_value : ℚ) : FinancialImpact :=
  let total_suppliers : ℚ := affected_suppliers.length
  let daily_revenue_at_risk := total_suppliers * avg_order_value * 0.1
  let expedited_shipping_cost := total_suppliers * 5000
  let alternative_sourcing_cost := total_suppliers * 10000
  let critical_count : ℚ :=
    (affected_suppliers.filter (fun s => decide (s.criticality = some "Critical"))).length
  let estimated_resolution_days := 7 + critical_count * 3
  let total_estimated_loss := daily_revenue_at_risk * estimated_resolution_days
  let total_mitigation_cost := expedited_shipping_cost + alternative_sourcing_cost
  { daily_revenue_at_risk := py_round2 daily_revenue_at_risk
    estimated_resolution_days := estimated_resolution_days
    total_estimated_loss := py_round2 total_estimated_loss
    expedited_shipping_cost := py_round2 expedited_shipping_cost
    alternative_sourcing_cost := py_round2 alternative_sourcing_cost
    total_mitigation_cost := py_round2 total_mitigation_cost
    net_impact := py_round2 (total_estimated_loss - total_mitigation_cost) }

/-- The inline financial-impact dictionary built by `analyze_risk`
(`risk_analyzer.py`): note its `critical_suppliers` list counts suppliers with
criticality in Critical or High. -/
def ra_financial_impact (affected_suppliers : List RASupplierRec) : FinancialImpact :=
  let n : ℚ := affected_suppliers.length
  let critical_suppliers := affected_suppliers.filter
    (fun s => decide (s.criticality = some "Critical" ∨ s.criticality = some "High"))
  let c : ℚ := critical_suppliers.length
  { daily_revenue_at_risk := n * 10000
    estimated_resolution_days := 7 + c * 3
    total_estimated_loss := n * 10000 * (7 + c * 3)
    expedited_shipping_cost := n * 5000
    alternative_sourcing_cost := n * 10000
    total_mitigation_cost := n * 15000
    net_impact := n * 10000 * (7 + c * 3) - n * 15000 }

/-! ### Downstream impact search (`app/services/dependency_analyzer.py`) -/

/-- The reverse-graph lookup `reverse_graph.get(current, [])` built by
`find_downstream_impact`: for each entry `(supplier_id, dependencies)` of the
dependency graph (a dict, modelled as an association list in insertion order),
`supplier_id` is appended once per occurrence of `d` in `dependencies`. -/
def dependents_of (dependency_graph : List (ℕ × List ℕ)) (d : ℕ) : List ℕ :=
  dependency_graph.flatMap
    (fun p => (p.2.filter (fun x => decide (x = d))).map (fun _ => p.1))

/-- The keys of the dependency graph. -/
def graph_keys (dependency_graph : List (ℕ × List ℕ)) : Finset ℕ :=
  (dependency_graph.map Prod.fst).toFinset

theorem dependents_of_subset_keys (g : List (ℕ × List ℕ)) (d x : ℕ)
    (hx : x ∈ dependents_of g d) : x ∈ graph_keys g := by
  unfold dependents_of at hx
  unfold graph_keys
  simp only [List.mem_flatMap, List.mem_map, List.mem_filter] at hx
  obtain ⟨p, hp, _, _, rfl⟩ := hx
  simp only [List.mem_toFinset, List.mem_map]
  exact ⟨p, hp, rfl⟩

/-- The body of the inner `for dependent in dependents` loop of
`find_downstream_impact`: state is `(visited, downstream_affected, queue)`. -/
def bfs_step (st : Finset ℕ × Finset ℕ × List ℕ) (dep : ℕ) :
    Finset ℕ × Finset ℕ × List ℕ :=
  if dep ∈ st.1 then st else (insert dep st.1, insert dep st.2.1, st.2.2 ++ [dep])

/-- The loop measure `|keys \ visited| + |queue|` is preserved by the inner
loop, provided every processed dependent is a key of the graph. -/
theorem bfs_step_foldl_measure (keys : Finset ℕ) :
    ∀ (deps : List ℕ) (st : Finset ℕ × Finset ℕ × List ℕ),
      (∀ x ∈ deps, x ∈ keys) →
      (keys.filter (fun x => x ∉ (deps.foldl bfs_step st).1)).card
          + (deps.foldl bfs_step st).2.2.length
        ≤ (keys.filter (fun x => x ∉ st.1)).card + st.2.2.length
  | [], st, _ => le_refl _
  | dep :: rest, st, h => by
    simp only [List.foldl_cons]
    refine le_trans (bfs_step_foldl_measure keys rest (bfs_step st dep)
      (fun x hx => h x (List.mem_cons_of_mem _ hx))) ?_
    unfold bfs_step
    by_cases hdep : dep ∈ st.1
    · rw [if_pos hdep]
    · rw [if_neg hdep]
      simp only [List.length_append, List.length_cons, List.length_nil]
      have hfil : keys.filter (fun x => x ∉ insert dep st.1)
          = (keys.filter (fun x => x ∉ st.1)).erase dep := by
        ext x
        simp only [Finset.mem_filter, Finset.mem_erase, Finset.mem_insert]
        tauto
      have hmem : dep ∈ keys.filter (fun x => x ∉ st.1) := by
        exact Finset.mem_filter.mpr ⟨h dep (List.mem_cons_self dep rest), hdep⟩
      rw [hfil, Finset.card_erase_of_mem hmem]
      have hpos : 0 < (keys.filter (fun x => x ∉ st.1)).card :=
        Finset.card_pos.mpr ⟨dep, hmem⟩
      omega

/-- The `while queue` loop of `find_downstream_impact`.  Each iteration pops
the head of the queue, then runs the inner loop over its dependents. -/
def bfs_loop (dependency_graph : List (ℕ × List ℕ))
    (visited downstream_affected : Finset ℕ) (queue : List ℕ) : Finset ℕ :=
  match queue with
  | [] => downstream_affected
  | current :: rest =>
    let st := (dependents_of dependency_graph current).foldl bfs_step
      (visited, downstream_affected, rest)
    bfs_loop dependency_graph st.1 st.2.1 st.2.2
termination_by ((graph_keys dependency_graph).filter (fun x => x ∉ visited)).card
  + queue.length
decreasing_by
  have h := bfs_step_foldl_measure (graph_keys dependency_graph)
    (dependents_of dependency_graph current) (visited, downstream_affected, rest)
    (fun x hx => dependents_of_subset_keys _ _ _ hx)
  have ha : (visited, downstream_affected, rest).1 = visited := rfl
  have hb : (visited, downstream_affected, rest).2.2 = rest := rfl
  rw [ha, hb] at h
  simp only [List.length_cons]
  omega

/-- Function `find_downstream_impact` from `dependency_analyzer.py`.  The Python input
is a set of affected supplier ids; it is modelled by the list
`queue = list(affected_supplier_ids)` together with
`visited = set(affected_supplier_ids)`. -/
def find_downstream_impact (affected_supplier_ids : List ℕ)
    (dependency_graph : List (ℕ × List ℕ)) : Finset ℕ :=
  bfs_loop dependency_graph affected_supplier_ids.toFinset ∅ affected_supplier_ids

/-! ### Geo-distance utilities (`supplier_scoring.calculate_distance` and
`live_feeds.LiveFeedService._calculate_distance`) -/

/-- Python `math.radians`. -/
noncomputable def radians (x : ℝ) : ℝ := x * Real.pi / 180

/-- Function `calculate_distance` from `app/services/supplier_scoring.py`
(Haversine with `asin`). -/
noncomputable def calculate_distance (lat1 lon1 lat2 lon2 : ℝ) : ℝ :=
  let rlat1 := radians lat1
  let rlat2 := radians lat2
  let rlon1 := radians lon1
  let rlon2 := radians lon2
  let dlat := rlat2 - rlat1
  let dlon := rlon2 - rlon1
  let a := Real.sin (dlat / 2) ^ 2 +
    Real.cos rlat1 * Real.cos rlat2 * Real.sin (dlon / 2) ^ 2
  let c := 2 * Real.arcsin (Real.sqrt a)
  c * 6371

open Classical in
/-- Python `math.atan2` (two-argument arctangent, exact-real model). -/
noncomputable def atan2 (y x : ℝ) : ℝ :=
  if 0 < x then Real.arctan (y / x)
  else if x < 0 ∧ 0 ≤ y then Real.arctan (y / x) + Real.pi
  else if x < 0 then Real.arctan (y / x) - Real.pi
  else if 0 < y then Real.pi / 2
  else if y < 0 then -(Real.pi / 2)
  else 0

/-- Function `_calculate_distance` from `app/services/live_feeds.py`
(Haversine with `atan2`). -/
noncomputable def live_calculate_distance (lat1 lon1 lat2 lon2 : ℝ) : ℝ :=
  let R : ℝ := 6371
  let rlat1 := radians lat1
  let rlat2 := radians lat2
  let rlon1 := radians lon1
  let rlon2 := radians lon2
  let dlat := rlat2 - rlat1
  let dlon := rlon2 - rlon1
  let a := Real.sin (dlat / 2) ^ 2 +
    Real.cos rlat1 * Real.cos rlat2 * Real.sin (dlon / 2) ^ 2
  let c := 2 * atan2 (Real.sqrt a) (Real.sqrt (1 - a))
  R * c

/-! ### Shared small helpers for Python semantics -/

/-- Python truthiness of an optional numeric value: `None` and `0` are falsy. -/
def otruthy (o : Option ℝ) : Prop :=
  match o with
  | none => False
  | some x => x ≠ 0

/-- Whether a character list starts with another (helper for the Python
substring operator `in`). -/
def starts_with_chars : List Char → List Char → Bool
  | _, [] => true
  | [], _ :: _ => false
  | h :: hs, n :: ns => h == n && starts_with_chars hs ns

/-- Whether a character list has another as a contiguous segment. -/
def chars_contain : List Char → List Char → Bool
  | [], needle => needle.isEmpty
  | h :: rest, needle => starts_with_chars (h :: rest) needle || chars_contain rest needle

/-- The Python substring test `needle in hay`. -/
def str_contains (hay needle : String) : Bool :=
  chars_contain hay.toList needle.toList

/-- The Python method `str.lower()` (character-wise, ASCII case mapping). -/
def lower_str (s : String) : String :=
  String.mk (s.toList.map Char.toLower)

/-- The Python method `str.upper()` (character-wise, ASCII case mapping). -/
def upper_str (s : String) : String :=
  String.mk (s.toList.map Char.toUpper)

/-! ### Supplier matcher (`app/agents/supplier_matcher.py`,
`SupplierMatcherAgent.find_affected_suppliers`) -/

/-- The parsed-event fields `find_affected_suppliers` reads: country/city
strings (absent keys default to `""`), optional coordinates, the affected
radius (`severity_assessment.get("affected_radius_km", 500)`), and the
`key_industries_affected` list. -/
structure MEvent : Type where
  country : String
  city : String
  lat : Option ℝ
  lon : Option ℝ
  radius : ℝ
  industries : List String

/-- The supplier fields `find_affected_suppliers` reads. -/
structure MSupplier : Type where
  id : ℕ
  country : String
  city : String
  category : String
  lat : Option ℝ
  lon : Option ℝ

/-- Check 1 of `find_affected_suppliers`:
`supplier.country.lower() == event_country.lower()`. -/
def country_match (e : MEvent) (s : MSupplier) : Bool :=
  lower_str s.country == lower_str e.country

/-- Check 2 of `find_affected_suppliers`:
`event_city and supplier.city and supplier.city.lower() == event_city.lower()`. -/
def city_match (e : MEvent) (s : MSupplier) : Bool :=
  !e.city.isEmpty && !s.city.isEmpty && (lower_str s.city == lower_str e.city)

/-- The guard of check 3: `event_lat and event_lon and supplier.latitude and
supplier.longitude` (Python truthiness, so a `0` coordinate fails the guard). -/
def geo_ready (e : MEvent) (s : MSupplier) : Prop :=
  otruthy e.lat ∧ otruthy e.lon ∧ otruthy s.lat ∧ otruthy s.lon

/-- The distance computed in check 3. -/
noncomputable def supplier_distance (e : MEvent) (s : MSupplier) : ℝ :=
  calculate_distance (e.lat.getD 0) (e.lon.getD 0) (s.lat.getD 0) (s.lon.getD 0)

/-- Check 3 fires: coordinates all truthy and `distance <= affected_radius`. -/
def geo_hit (e : MEvent) (s : MSupplier) : Prop :=
  geo_ready e s ∧ supplier_distance e s ≤ e.radius

/-- Check 4, `_check_industry_impact`: case-insensitive substring containment
in either direction between each affected industry and the supplier category. -/
def industry_match (e : MEvent) (s : MSupplier) : Bool :=
  e.industries.any (fun industry =>
    str_contains (lower_str s.category) (lower_str industry) ||
    str_contains (lower_str industry) (lower_str s.category))

open Classical in
/-- The per-supplier loop body of `find_affected_suppliers`: returns the final
`(is_affected, proximity_score)` pair for one supplier, mirroring the
sequential checks 1-4 (the geographic check can only raise the score via
`max`; the industry check runs only when the supplier is not yet affected). -/
noncomputable def match_eval (e : MEvent) (s : MSupplier) : Prop × ℝ :=
  let a1 : Prop := country_match e s = true
  let p1 : ℝ := if country_match e s then (if city_match e s then 1.0 else 0.8) else 0
  let a2 : Prop := a1 ∨ geo_hit e s
  let p2 : ℝ :=
    if geo_hit e s then max p1 (1 - supplier_distance e s / e.radius) else p1
  let a3 : Prop := a2 ∨ (¬a2 ∧ industry_match e s = true)
  let p3 : ℝ := if ¬a2 ∧ industry_match e s = true then 0.5 else p2
  (a3, p3)

/-- Whether `find_affected_suppliers` classifies the supplier as affected. -/
noncomputable def match_is_affected (e : MEvent) (s : MSupplier) : Prop :=
  (match_eval e s).1

/-- The proximity score `find_affected_suppliers` computes for the supplier
(before the presentation-only `round(·, 2)` of the output dictionary). -/
noncomputable def match_proximity (e : MEvent) (s : MSupplier) : ℝ :=
  (match_eval e s).2

/-! ### Live-feed supplier matching (`app/services/live_feeds.py`,
`LiveFeedService._is_supplier_affected`) -/

/-- The event-type → impact-radius dictionary of `_is_supplier_affected`,
with its `.get(event_type, 100)` default. -/
def impact_radius (event_type : String) : ℚ :=
  if event_type = "NATURAL_DISASTER" then 500
  else if event_type = "WEATHER_EVENT" then 300
  else if event_type = "LABOR_DISPUTE" then 50
  else if event_type = "INDUSTRIAL_ACCIDENT" then 100
  else if event_type = "LOGISTICS_DISRUPTION" then 200
  else 100

/-- The event-location fields `_is_supplier_affected` reads. -/
structure LiveEventLoc : Type where
  country : String
  lat : Option ℝ
  lon : Option ℝ

/-- The supplier fields `_is_supplier_affected` reads (its distance call does
not guard the supplier coordinates, so they are plain reals here). -/
structure LiveSupplier : Type where
  country : String
  lat : ℝ
  lon : ℝ

/-- Function `_is_supplier_affected` from `live_feeds.py`: country containment match
(upper-cased, both strings truthy), otherwise distance against the
event-type-specific radius when the event coordinates are truthy, otherwise
not affected. -/
noncomputable def live_is_supplier_affected (s : LiveSupplier)
    (event_location : LiveEventLoc) (event_type : String) : Prop :=
  (event_location.country ≠ "" ∧ s.country ≠ "" ∧
    str_contains (upper_str s.country) (upper_str event_location.country) = true)
  ∨ (otruthy event_location.lat ∧ otruthy event_location.lon ∧
    live_calculate_distance s.lat s.lon
      (event_location.lat.getD 0) (event_location.lon.getD 0)
      ≤ (impact_radius event_type : ℝ))

/-! ### Alternative supplier ranking (`app/services/supplier_scoring.py`) -/

/-- The supplier fields `score_alternative_supplier` reads. -/
structure AltSupplier : Type where
  id : ℕ
  name : String
  country : String
  tier : ℤ
  lead_time_days : ℝ
  reliability_score : ℝ
  capacity_utilization : ℝ
  lat : Option ℝ
  lon : Option ℝ

/-- The score dictionary returned by `score_alternative_supplier`
(the presentation-only `details` block is omitted). -/
structure AltScore : Type where
  supplier_id : ℕ
  supplier_name : String
  total_score : ℝ
  geographic_distance : ℝ
  capacity_availability : ℝ
  reliability : ℝ
  lead_time : ℝ
  tier_match : ℝ

open Classical in
/-- Function `score_alternative_supplier` from `supplier_scoring.py`. -/
noncomputable def score_alternative_supplier (alternative affected_supplier : AltSupplier)
    (event_location : Option (ℝ × ℝ)) : AltScore :=
  let geographic_distance : ℝ :=
    match event_location with
    | some (event_lat, event_lon) =>
      if otruthy alternative.lat ∧ otruthy alternative.lon then
        min 100 (calculate_distance event_lat event_lon
          (alternative.lat.getD 0) (alternative.lon.getD 0) / 2000 * 100)
      else if alternative.country ≠ affected_supplier.country then 70 else 30
    | none => if alternative.country ≠ affected_supplier.country then 70 else 30
  let capacity_availability : ℝ := 100 - alternative.capacity_utilization
  let reliability : ℝ := alternative.reliability_score
  let lead_time : ℝ := max 0 (100 - alternative.lead_time_days / 90 * 100)
  let tier_match : ℝ :=
    if alternative.tier = affected_supplier.tier then 100
    else if (alternative.tier - affected_supplier.tier).natAbs = 1 then 50
    else 20
  let total_score := geographic_distance * 0.25 + capacity_availability * 0.20 +
    reliability * 0.25 + lead_time * 0.20 + tier_match * 0.10
  { supplier_id := alternative.id
    supplier_name := alternative.name
    total_score := py_round2 total_score
    geographic_distance := py_round2 geographic_distance
    capacity_availability := py_round2 capacity_availability
    reliability := py_round2 reliability
    lead_time := py_round2 lead_time
    tier_match := py_round2 tier_match }

open Classical in
/-- The descending comparison `rank_alternative_suppliers` sorts with
(`key=lambda x: x["total_score"], reverse=True`). -/
noncomputable def score_ge (a b : AltScore) : Bool :=
  decide (b.total_score ≤ a.total_score)

/-- Function `rank_alternative_suppliers` from `supplier_scoring.py`. -/
noncomputable def rank_alternative_suppliers (alternatives : List AltSupplier)
    (affected_supplier : AltSupplier) (event_location : Option (ℝ × ℝ))
    (top_n : ℕ) : List AltScore :=
  let scored_alternatives := alternatives.map
    (fun alt => score_alternative_supplier alt affected_supplier event_location)
  (scored_alternatives.mergeSort score_ge).take top_n

/-! ## Helper lemmas -/

theorem bfs_step_foldl_invariant (A : Finset ℕ) :
    ∀ (deps : List ℕ) (st : Finset ℕ × Finset ℕ × List ℕ),
      A ⊆ st.1 → Disjoint st.2.1 A →
      A ⊆ (deps.foldl bfs_step st).1 ∧ Disjoint (deps.foldl bfs_step st).2.1 A
  | [], st, hv, hd => ⟨hv, hd⟩
  | dep :: rest, st, hv, hd => by
    simp only [List.foldl_cons]
    refine bfs_step_foldl_invariant A rest (bfs_step st dep) ?_ ?_
    · unfold bfs_step
      by_cases hdep : dep ∈ st.1
      · rw [if_pos hdep]; exact hv
      · rw [if_neg hdep]
        exact hv.trans (Finset.subset_insert dep st.1)
    · unfold bfs_step
      by_cases hdep : dep ∈ st.1
      · rw [if_pos hdep]; exact hd
      · rw [if_neg hdep]
        refine Finset.disjoint_insert_left.mpr ⟨fun hmem => hdep (hv hmem), hd⟩

theorem bfs_loop_disjoint (g : List (ℕ × List ℕ)) (A : Finset ℕ)
    (visited downstream : Finset ℕ) (queue : List ℕ)
    (hv : A ⊆ visited) (hd : Disjoint downstream A) :
    Disjoint (bfs_loop g visited downstream queue) A := by
  induction visited, downstream, queue using bfs_loop.induct g with
  | case1 visited downstream => simpa [bfs_loop] using hd
  | case2 visited downstream current rest st ih =>
    rw [bfs_loop]
    have h := bfs_step_foldl_invariant A (dependents_of g current)
      (visited, downstream, rest) hv hd
    exact ih h.1 h.2

/-! ## Claim theorems -/

/-- C3: on the dependency graph forming a 3-cycle where supplier 1 depends on
2, 2 depends on 3, and 3 depends on 1, the downstream-impact search started
from the affected set `{1}` terminates and returns exactly `{2, 3}`.
(Termination on every finite graph is witnessed by `find_downstream_impact`
being a total function, proved terminating by the measure
`|graph keys not yet visited| + |queue|`.) -/
theorem c3_cycle_terminates_and_returns :
    find_downstream_impact [1] [(1, [2]), (2, [3]), (3, [1])] = {2, 3} := by
  rw [find_downstream_impact]
  rw [bfs_loop]
  simp only [dependents_of, bfs_step, List.foldl]
  norm_num
  rw [bfs_loop]
  simp only [dependents_of, bfs_step, List.foldl]
  norm_num
  rw [bfs_loop]
  simp only [dependents_of, bfs_step, List.foldl]
  norm_num
  rw [bfs_loop]

/-- C4: for every dependency graph and affected list, the result of the
downstream-impact search is disjoint from the affected set, and an empty
affected set yields an empty result. -/
theorem c4_downstream_excludes_affected :
    ∀ (g : List (ℕ × List ℕ)) (affected : List ℕ),
      Disjoint (find_downstream_impact affected g) affected.toFinset ∧
      find_downstream_impact [] g = ∅ := by
  intro g affected
  constructor
  · exact bfs_loop_disjoint g affected.toFinset affected.toFinset ∅ affected
      (Finset.Subset.refl _) (Finset.disjoint_left.mpr (by simp))
  · rw [find_downstream_impact, bfs_loop]

/-- C1 counterexample: in the alternate simplified variant (`analyze_risk`)
the criticality contribution for a Low supplier is the flat bonus 10, not the
weight-table value 0.25 × 30 = 7.5; at severity 5, tier 1 and proximity 0 the
two strategies therefore return 75 and 72.5. -/
theorem c1_counterexample :
    crit_bonus "Low" = 10 ∧
    CRITICALITY_WEIGHTS CriticalityLevel.LOW * 30 = 7.5 ∧
    ra_impact_score ⟨some "Low", some 1, some 0, none⟩ 5 = 75 ∧
    calculate_supplier_impact_score CriticalityLevel.LOW SupplierTier.TIER_1 5 0 = 72.5 := by
  refine ⟨by norm_num [crit_bonus], by norm_num [CRITICALITY_WEIGHTS], ?_, ?_⟩
  · have h : ra_impact_score ⟨some "Low", some 1, some 0, none⟩ 5
        = py_round2 ((75 : ℕ) : ℚ) := by
      norm_num [ra_impact_score, crit_bonus, tier_bonus, min_def]
    rw [h, py_round2_natCast]
    norm_num
  · norm_num [calculate_supplier_impact_score, CRITICALITY_WEIGHTS,
      TIER_MULTIPLIERS, min_def]

theorem crit_bonus_low : crit_bonus "Low" = 10 := by
  unfold crit_bonus
  rw [if_pos rfl]

theorem crit_bonus_medium : crit_bonus "Medium" = 20 := by
  unfold crit_bonus
  rw [if_neg (by decide), if_pos rfl]

theorem crit_bonus_high : crit_bonus "High" = 30 := by
  unfold crit_bonus
  rw [if_neg (by decide), if_neg (by decide), if_pos rfl]

theorem crit_bonus_critical : crit_bonus "Critical" = 40 := by
  unfold crit_bonus
  rw [if_neg (by decide), if_neg (by decide), if_neg (by decide), if_pos rfl]

/-- C1 (amended): the criticality weight table ×30 and tier table ×15 hold in
the incident-analysis strategy (`calculate_supplier_impact_score`) only; the
alternate simplified strategy (`analyze_risk`) instead uses flat bonuses
{Low 10, Medium 20, High 30, Critical 40} and {Tier1 15, Tier2 10, Tier3 5},
whose criticality contribution differs from the weight table × 30 at every
criticality level and whose tier contribution differs from the multiplier
table × 15 except at tier 1; the severity contribution is the same formula
(severity/5 × 50) in both strategies, while the proximity contribution also
differs (×5 versus ×10). -/
theorem c1_impact_strategy_tables :
    ∀ (c : CriticalityLevel) (t : SupplierTier) (sev prox : ℚ),
      calculate_supplier_impact_score c t sev prox
        = min 100 (sev / 5 * 50 + CRITICALITY_WEIGHTS c * 30 +
            TIER_MULTIPLIERS t * 15 + prox * 5) ∧
      ra_impact_score ⟨some (crit_name c), some (tier_int t), some prox, none⟩ sev
        = py_round2 (min 100 (sev / 5 * 50 + crit_bonus (crit_name c) +
            tier_bonus (tier_int t) + prox * 10)) ∧
      crit_bonus (crit_name c) ≠ CRITICALITY_WEIGHTS c * 30 ∧
      tier_bonus (tier_int SupplierTier.TIER_1) = TIER_MULTIPLIERS SupplierTier.TIER_1 * 15 ∧
      (t = SupplierTier.TIER_1 ∨ tier_bonus (tier_int t) ≠ TIER_MULTIPLIERS t * 15) := by
  intro c t sev prox
  refine ⟨rfl, rfl, ?_, by norm_num [tier_bonus, tier_int, TIER_MULTIPLIERS], ?_⟩
  · cases c <;>
      norm_num [crit_name, crit_bonus_low, crit_bonus_medium, crit_bonus_high,
        crit_bonus_critical, CRITICALITY_WEIGHTS]
  · cases t
    · exact Or.inl rfl
    · exact Or.inr (by norm_num [tier_bonus, tier_int, TIER_MULTIPLIERS])
    · exact Or.inr (by norm_num [tier_bonus, tier_int, TIER_MULTIPLIERS])

/-- C5 counterexample: the `analyze_risk` financial estimate counts High
criticality as critical, so for one affected supplier of criticality High the
estimated resolution days are 10, while the claimed formula
7 + 3 × (number of Critical suppliers) gives 7. -/
theorem c5_counterexample :
    (ra_financial_impact [⟨some "High", none, none, none⟩]).estimated_resolution_days = 10 ∧
    (ra_financial_impact [⟨some "High", none, none, none⟩]).estimated_resolution_days
      ≠ 7 + 3 * ((([⟨some "High", none, none, none⟩] : List RASupplierRec).filter
          (fun s => decide (s.criticality = some "Critical"))).length : ℚ) := by
  have hfil : (([⟨some "High", none, none, none⟩] : List RASupplierRec).filter
      (fun s => decide (s.criticality = some "Critical"))).length = 0 := by
    rw [List.filter_cons_of_neg (by decide)]
    rfl
  have hdays : (ra_financial_impact
      [⟨some "High", none, none, none⟩]).estimated_resolution_days = 10 := by
    unfold ra_financial_impact
    rw [List.filter_cons_of_pos (by decide)]
    norm_num
  refine ⟨hdays, ?_⟩
  rw [hdays, hfil]
  norm_num

/-- C5 (amended): with the default average order value ($100,000), the
`risk_calculator` variant satisfies daily_revenue_at_risk = n × $10,000,
estimated_resolution_days = 7 + 3 × critical_count with critical_count
counting criticality exactly "Critical", total_estimated_loss = daily ×
days, mitigation = n × $15,000 (= $5,000 + $10,000 per supplier) and
net_impact = loss − mitigation; the `analyze_risk` variant satisfies the
same equations except that its count includes both "Critical" and "High"
criticalities. -/
theorem c5_financial_impact_formulas :
    ∀ l : List RASupplierRec,
      (calculate_financial_impact l 100000).daily_revenue_at_risk
        = (l.length : ℚ) * 10000 ∧
      (calculate_financial_impact l 100000).estimated_resolution_days
        = 7 + 3 * (((l.filter (fun s => decide (s.criticality = some "Critical"))).length : ℚ)) ∧
      (calculate_financial_impact l 100000).total_estimated_loss
        = (l.length : ℚ) * 10000 *
          (7 + 3 * (((l.filter (fun s => decide (s.criticality = some "Critical"))).length : ℚ))) ∧
      (calculate_financial_impact l 100000).expedited_shipping_cost
        = (l.length : ℚ) * 5000 ∧
      (calculate_financial_impact l 100000).alternative_sourcing_cost
        = (l.length : ℚ) * 10000 ∧
      (calculate_financial_impact l 100000).total_mitigation_cost
        = (l.length : ℚ) * 15000 ∧
      (calculate_financial_impact l 100000).net_impact
        = (l.length : ℚ) * 10000 *
            (7 + 3 * (((l.filter (fun s => decide (s.criticality = some "Critical"))).length : ℚ)))
          - (l.length : ℚ) * 15000 ∧
      (ra_financial_impact l).daily_revenue_at_risk = (l.length : ℚ) * 10000 ∧
      (ra_financial_impact l).estimated_resolution_days
        = 7 + 3 * (((l.filter (fun s => decide (s.criticality = some "Critical" ∨
            s.criticality = some "High"))).length : ℚ)) ∧
      (ra_financial_impact l).total_estimated_loss
        = (l.length : ℚ) * 10000 *
          (7 + 3 * (((l.filter (fun s => decide (s.criticality = some "Critical" ∨
            s.criticality = some "High"))).length : ℚ))) ∧
      (ra_financial_impact l).expedited_shipping_cost = (l.length : ℚ) * 5000 ∧
      (ra_financial_impact l).alternative_sourcing_cost = (l.length : ℚ) * 10000 ∧
      (ra_financial_impact l).total_mitigation_cost = (l.length : ℚ) * 15000 ∧
      (ra_financial_impact l).net_impact
        = (l.length : ℚ) * 10000 *
            (7 + 3 * (((l.filter (fun s => decide (s.criticality = some "Critical" ∨
              s.criticality = some "High"))).length : ℚ)))
          - (l.length : ℚ) * 15000 := by
  intro l
  have hdaily : ((l.length : ℚ) * 100000 * 0.1) = ((10000 * l.length : ℕ) : ℚ) := by
    push_cast; ring
  have hexp : ((l.length : ℚ) * 5000) = ((5000 * l.length : ℕ) : ℚ) := by
    push_cast; ring
  have halt : ((l.length : ℚ) * 10000) = ((10000 * l.length : ℕ) : ℚ) := by
    push_cast; ring
  have hmit : ((l.length : ℚ) * 5000 + (l.length : ℚ) * 10000)
      = ((15000 * l.length : ℕ) : ℚ) := by
    push_cast; ring
  have hloss : ((l.length : ℚ) * 100000 * 0.1 *
      (7 + ((l.filter (fun s => decide (s.criticality = some "Critical"))).length : ℚ) * 3))
      = ((10000 * l.length * (7 + 3 *
          (l.filter (fun s => decide (s.criticality = some "Critical"))).length) : ℕ) : ℚ) := by
    push_cast; ring
  have hnet : ((l.length : ℚ) * 100000 * 0.1 *
      (7 + ((l.filter (fun s => decide (s.criticality = some "Critical"))).length : ℚ) * 3)
      - ((l.length : ℚ) * 5000 + (l.length : ℚ) * 10000))
      = (((10000 * l.length * (7 + 3 *
          (l.filter (fun s => decide (s.criticality = some "Critical"))).length) : ℤ)
          - 15000 * l.length : ℤ) : ℚ) := by
    push_cast; ring
  refine ⟨?_, by push_cast [calculate_financial_impact]; try ring, ?_, ?_, ?_, ?_, ?_,
    by push_cast [ra_financial_impact]; try ring, by push_cast [ra_financial_impact]; try ring,
    by push_cast [ra_financial_impact]; try ring, by push_cast [ra_financial_impact]; try ring,
    by push_cast [ra_financial_impact]; try ring, by push_cast [ra_financial_impact]; try ring,
    by push_cast [ra_financial_impact]; try ring⟩
  · show py_round2 ((l.length : ℚ) * 100000 * 0.1) = (l.length : ℚ) * 10000
    rw [hdaily, py_round2_natCast]; push_cast; try ring
  · show py_round2 ((l.length : ℚ) * 100000 * 0.1 *
        (7 + ((l.filter (fun s => decide (s.criticality = some "Critical"))).length : ℚ) * 3))
      = (l.length : ℚ) * 10000 *
        (7 + 3 * (((l.filter (fun s => decide (s.criticality = some "Critical"))).length : ℚ)))
    rw [hloss, py_round2_natCast]; push_cast; try ring
  · show py_round2 ((l.length : ℚ) * 5000) = (l.length : ℚ) * 5000
    rw [hexp, py_round2_natCast]
  · show py_round2 ((l.length : ℚ) * 10000) = (l.length : ℚ) * 10000
    rw [halt, py_round2_natCast]
  · show py_round2 ((l.length : ℚ) * 5000 + (l.length : ℚ) * 10000)
      = (l.length : ℚ) * 15000
    rw [hmit, py_round2_natCast]; push_cast; try ring
  · show py_round2 ((l.length : ℚ) * 100000 * 0.1 *
        (7 + ((l.filter (fun s => decide (s.criticality = some "Critical"))).length : ℚ) * 3)
        - ((l.length : ℚ) * 5000 + (l.length : ℚ) * 10000))
      = (l.length : ℚ) * 10000 *
          (7 + 3 * (((l.filter (fun s => decide (s.criticality = some "Critical"))).length : ℚ)))
        - (l.length : ℚ) * 15000
    rw [hnet, py_round2_intCast]; push_cast; try ring

/-- C6 counterexample: `analyze_risk` mutates its matched-supplier list in
place — after the call, a record that arrived without an `impact_score` key
carries one, so the input list is not identical before and after. -/
theorem c6_counterexample :
    ra_update_suppliers [⟨some "Low", some 1, some 1, none⟩] 5
      ≠ [⟨some "Low", some 1, some 1, none⟩] := by
  intro h
  simp only [ra_update_suppliers, List.map_cons, List.map_nil,
    List.mergeSort_singleton, List.cons.injEq, RASupplierRec.mk.injEq] at h
  exact Option.noConfusion h.1.2.2.2

/-- C6 (amended): the supplier matcher, downstream-impact search and
alternative ranker build fresh result structures, but the risk scorer
`analyze_risk` does mutate its input matched-supplier list in place: the
observable list after the call is a permutation of the input records with an
`impact_score` written into every record, re-sorted by impact score
non-increasing. -/
theorem c6_scorer_updates_input_in_place :
    ∀ (l : List RASupplierRec) (sev : ℚ),
      (ra_update_suppliers l sev).Perm
        (l.map (fun s => { s with impact_score := some (ra_impact_score s sev) })) ∧
      (ra_update_suppliers l sev).Pairwise
        (fun a b => b.impact_score.getD 0 ≤ a.impact_score.getD 0) ∧
      ∀ r ∈ ra_update_suppliers l sev, r.impact_score.isSome = true := by
  intro l sev
  refine ⟨List.mergeSort_perm _ _, ?_, ?_⟩
  · have h := @List.sorted_mergeSort RASupplierRec
      (fun a b => decide (b.impact_score.getD 0 ≤ a.impact_score.getD 0))
      (fun a b c hab hbc => by
        simp only [decide_eq_true_eq] at *
        exact le_trans hbc hab)
      (fun a b => by
        simp only [Bool.or_eq_true, decide_eq_true_eq]
        exact le_total _ _)
      (l.map (fun s => { s with impact_score := some (ra_impact_score s sev) }))
    exact h.imp (fun hab => by simpa using hab)
  · intro r hr
    have hr' : r ∈ l.map
        (fun s => { s with impact_score := some (ra_impact_score s sev) }) :=
      List.mem_mergeSort.mp hr
    obtain ⟨s, _, rfl⟩ := List.mem_map.mp hr'
    rfl

/-! ## Geo-distance lemmas -/

theorem hav_a_symm (a b c d : ℝ) :
    Real.sin ((c - a) / 2) ^ 2 + Real.cos a * Real.cos c * Real.sin ((d - b) / 2) ^ 2
      = Real.sin ((a - c) / 2) ^ 2 + Real.cos c * Real.cos a * Real.sin ((b - d) / 2) ^ 2 := by
  rw [show (a - c) = -(c - a) by ring, show (b - d) = -(d - b) by ring]
  simp only [neg_div, Real.sin_neg, neg_sq]
  ring

theorem calculate_distance_symm (lat1 lon1 lat2 lon2 : ℝ) :
    calculate_distance lat1 lon1 lat2 lon2 = calculate_distance lat2 lon2 lat1 lon1 := by
  simp only [calculate_distance]
  rw [hav_a_symm (radians lat1) (radians lon1) (radians lat2) (radians lon2)]

theorem calculate_distance_nonneg (lat1 lon1 lat2 lon2 : ℝ) :
    0 ≤ calculate_distance lat1 lon1 lat2 lon2 := by
  simp only [calculate_distance]
  have h : 0 ≤ Real.arcsin (Real.sqrt (Real.sin ((radians lat2 - radians lat1) / 2) ^ 2 +
      Real.cos (radians lat1) * Real.cos (radians lat2) *
        Real.sin ((radians lon2 - radians lon1) / 2) ^ 2)) :=
    Real.arcsin_nonneg.mpr (Real.sqrt_nonneg _)
  have h2 : (0:ℝ) ≤ 2 := by norm_num
  have h6371 : (0:ℝ) ≤ 6371 := by norm_num
  exact mul_nonneg (mul_nonneg h2 h) h6371

theorem calculate_distance_self (lat lon : ℝ) :
    calculate_distance lat lon lat lon = 0 := by
  simp [calculate_distance, sub_self, Real.sin_zero, Real.sqrt_zero, Real.arcsin_zero]

theorem calculate_distance_pole :
    calculate_distance 90 0 90 1 = 0 := by
  simp only [calculate_distance]
  have hr : radians 90 = Real.pi / 2 := by unfold radians; ring
  rw [hr]
  simp [sub_self, Real.sin_zero, Real.cos_pi_div_two, Real.sqrt_zero, Real.arcsin_zero]

theorem atan2_zero_one : atan2 0 1 = 0 := by
  unfold atan2
  rw [if_pos one_pos]
  simp [Real.arctan_zero]

theorem atan2_nonneg (y x : ℝ) (hy : 0 ≤ y) : 0 ≤ atan2 y x := by
  unfold atan2
  split_ifs with h1 h2 h3 h4 h5
  · have := Real.arctan_strictMono.monotone (div_nonneg hy (le_of_lt h1))
    rwa [Real.arctan_zero] at this
  · have := Real.neg_pi_div_two_lt_arctan (y / x)
    have hpi := Real.pi_pos
    linarith
  · exact (h2 ⟨h3, hy⟩).elim
  · have hpi := Real.pi_pos
    linarith
  · exact (h5.not_le hy).elim
  · exact le_refl 0

theorem live_calculate_distance_symm (lat1 lon1 lat2 lon2 : ℝ) :
    live_calculate_distance lat1 lon1 lat2 lon2
      = live_calculate_distance lat2 lon2 lat1 lon1 := by
  simp only [live_calculate_distance]
  rw [hav_a_symm (radians lat1) (radians lon1) (radians lat2) (radians lon2)]

theorem live_calculate_distance_nonneg (lat1 lon1 lat2 lon2 : ℝ) :
    0 ≤ live_calculate_distance lat1 lon1 lat2 lon2 := by
  simp only [live_calculate_distance]
  have h : 0 ≤ atan2 (Real.sqrt (Real.sin ((radians lat2 - radians lat1) / 2) ^ 2 +
      Real.cos (radians lat1) * Real.cos (radians lat2) *
        Real.sin ((radians lon2 - radians lon1) / 2) ^ 2))
      (Real.sqrt (1 - (Real.sin ((radians lat2 - radians lat1) / 2) ^ 2 +
        Real.cos (radians lat1) * Real.cos (radians lat2) *
          Real.sin ((radians lon2 - radians lon1) / 2) ^ 2))) :=
    atan2_nonneg _ _ (Real.sqrt_nonneg _)
  have h2 : (0:ℝ) ≤ 2 := by norm_num
  have h6371 : (0:ℝ) ≤ 6371 := by norm_num
  exact mul_nonneg h6371 (mul_nonneg h2 h)

theorem live_calculate_distance_self (lat lon : ℝ) :
    live_calculate_distance lat lon lat lon = 0 := by
  simp [live_calculate_distance, sub_self, Real.sin_zero, Real.sqrt_zero,
    Real.sqrt_one, atan2_zero_one]

/-- C7 counterexample: the Haversine distance is 0 for the distinct coordinate
pairs (90, 0) and (90, 1) — both denote the north pole — so distance zero does
not imply that the two input points are identical. -/
theorem c7_counterexample :
    calculate_distance 90 0 90 1 = 0 ∧
    ((90 : ℝ), (0 : ℝ)) ≠ ((90 : ℝ), (1 : ℝ)) := by
  refine ⟨calculate_distance_pole, ?_⟩
  simp only [ne_eq, Prod.mk.injEq, not_and]
  intro _
  norm_num

/-- C7 (amended): both Haversine implementations (`calculate_distance` in
`supplier_scoring.py` and `_calculate_distance` in `live_feeds.py`) are
symmetric, non-negative, and return 0 on identical inputs; however distance 0
does not imply the coordinate pairs are identical (see the pole
counterexample), so "zero exactly when identical" fails in one direction. -/
theorem c7_distance_metric_properties :
    ∀ lat1 lon1 lat2 lon2 : ℝ,
      calculate_distance lat1 lon1 lat2 lon2 = calculate_distance lat2 lon2 lat1 lon1 ∧
      0 ≤ calculate_distance lat1 lon1 lat2 lon2 ∧
      calculate_distance lat1 lon1 lat1 lon1 = 0 ∧
      live_calculate_distance lat1 lon1 lat2 lon2
        = live_calculate_distance lat2 lon2 lat1 lon1 ∧
      0 ≤ live_calculate_distance lat1 lon1 lat2 lon2 ∧
      live_calculate_distance lat1 lon1 lat1 lon1 = 0 :=
  fun lat1 lon1 lat2 lon2 =>
    ⟨calculate_distance_symm lat1 lon1 lat2 lon2,
     calculate_distance_nonneg lat1 lon1 lat2 lon2,
     calculate_distance_self lat1 lon1,
     live_calculate_distance_symm lat1 lon1 lat2 lon2,
     live_calculate_distance_nonneg lat1 lon1 lat2 lon2,
     live_calculate_distance_self lat1 lon1⟩

/-- C2: the live-feed supplier matcher compares the Haversine distance against
the event-type-specific impact radius (NATURAL_DISASTER 500 km, WEATHER_EVENT
300 km, LABOR_DISPUTE 50 km, INDUSTRIAL_ACCIDENT 100 km, LOGISTICS_DISRUPTION
200 km, default 100 km), and when the event has truthy coordinates the
supplier is affected exactly when the country match fires or the distance is
at most that radius. -/
theorem c2_impact_radius_table :
    impact_radius "NATURAL_DISASTER" = 500 ∧
    impact_radius "WEATHER_EVENT" = 300 ∧
    impact_radius "LABOR_DISPUTE" = 50 ∧
    impact_radius "INDUSTRIAL_ACCIDENT" = 100 ∧
    impact_radius "LOGISTICS_DISRUPTION" = 200 ∧
    (∀ t : String, t ≠ "NATURAL_DISASTER" → t ≠ "WEATHER_EVENT" →
      t ≠ "LABOR_DISPUTE" → t ≠ "INDUSTRIAL_ACCIDENT" →
      t ≠ "LOGISTICS_DISRUPTION" → impact_radius t = 100) ∧
    (∀ (s : LiveSupplier) (loc : LiveEventLoc) (t : String),
      otruthy loc.lat → otruthy loc.lon →
      (live_is_supplier_affected s loc t ↔
        ((loc.country ≠ "" ∧ s.country ≠ "" ∧
          str_contains (upper_str s.country) (upper_str loc.country) = true) ∨
         live_calculate_distance s.lat s.lon (loc.lat.getD 0) (loc.lon.getD 0)
           ≤ (impact_radius t : ℝ)))) := by
  refine ⟨rfl, ?_, ?_, ?_, ?_, ?_, ?_⟩
  · unfold impact_radius
    rw [if_neg (by decide), if_pos rfl]
  · unfold impact_radius
    rw [if_neg (by decide), if_neg (by decide), if_pos rfl]
  · unfold impact_radius
    rw [if_neg (by decide), if_neg (by decide), if_neg (by decide), if_pos rfl]
  · unfold impact_radius
    rw [if_neg (by decide), if_neg (by decide), if_neg (by decide),
      if_neg (by decide), if_pos rfl]
  · intro t h1 h2 h3 h4 h5
    unfold impact_radius
    rw [if_neg h1, if_neg h2, if_neg h3, if_neg h4, if_neg h5]
  · intro s loc t hlat hlon
    unfold live_is_supplier_affected
    constructor
    · rintro (h | h)
      · exact Or.inl h
      · exact Or.inr h.2.2
    · rintro (h | h)
      · exact Or.inl h
      · exact Or.inr ⟨hlat, hlon, h⟩

/-- Witness for C2 at a concrete event and supplier with truthy coordinates. -/
theorem c2_witness :
    otruthy ((⟨"", some 10, some 20⟩ : LiveEventLoc).lat) ∧
    otruthy ((⟨"", some 10, some 20⟩ : LiveEventLoc).lon) ∧
    (live_is_supplier_affected ⟨"X", 10, 20⟩ ⟨"", some 10, some 20⟩ "NATURAL_DISASTER" ↔
      (((⟨"", some 10, some 20⟩ : LiveEventLoc).country ≠ "" ∧
        (⟨"X", 10, 20⟩ : LiveSupplier).country ≠ "" ∧
        str_contains (upper_str (⟨"X", 10, 20⟩ : LiveSupplier).country)
          (upper_str (⟨"", some 10, some 20⟩ : LiveEventLoc).country) = true) ∨
       live_calculate_distance (⟨"X", 10, 20⟩ : LiveSupplier).lat
         (⟨"X", 10, 20⟩ : LiveSupplier).lon
         ((⟨"", some 10, some 20⟩ : LiveEventLoc).lat.getD 0)
         ((⟨"", some 10, some 20⟩ : LiveEventLoc).lon.getD 0)
         ≤ (impact_radius "NATURAL_DISASTER" : ℝ))) := by
  have hlat : otruthy ((⟨"", some 10, some 20⟩ : LiveEventLoc).lat) := by
    show (10 : ℝ) ≠ 0
    norm_num
  have hlon : otruthy ((⟨"", some 10, some 20⟩ : LiveEventLoc).lon) := by
    show (20 : ℝ) ≠ 0
    norm_num
  exact ⟨hlat, hlon,
    c2_impact_radius_table.2.2.2.2.2.2 ⟨"X", 10, 20⟩ ⟨"", some 10, some 20⟩
      "NATURAL_DISASTER" hlat hlon⟩

theorem otruthy_none : ¬ otruthy none := fun h => h

theorem otruthy_some_zero : ¬ otruthy (some 0) := fun h => h rfl

/-- C10: if the incident latitude or longitude is exactly 0, or the supplier
latitude or longitude is exactly 0 or missing, `find_affected_suppliers`
skips the geographic-proximity check (Python truthiness treats 0 as absent),
so the supplier is affected exactly when the country match or the
industry-keyword match fires — even if it is within the impact radius. -/
theorem c10_zero_coords_skip_geo_check :
    ∀ (e : MEvent) (s : MSupplier),
      (e.lat = some 0 ∨ e.lon = some 0 ∨ s.lat = some 0 ∨ s.lat = none ∨
        s.lon = some 0 ∨ s.lon = none) →
      (match_is_affected e s ↔
        (country_match e s = true ∨ industry_match e s = true)) := by
  intro e s h
  have hng : ¬ geo_ready e s := by
    intro hg
    obtain ⟨h1, h2, h3, h4⟩ := hg
    rcases h with h | h | h | h | h | h
    · rw [h] at h1; exact otruthy_some_zero h1
    · rw [h] at h2; exact otruthy_some_zero h2
    · rw [h] at h3; exact otruthy_some_zero h3
    · rw [h] at h3; exact otruthy_none h3
    · rw [h] at h4; exact otruthy_some_zero h4
    · rw [h] at h4; exact otruthy_none h4
  have hgeo : ¬ geo_hit e s := fun hg => hng hg.1
  have hform : match_is_affected e s =
      ((country_match e s = true ∨ geo_hit e s) ∨
        (¬(country_match e s = true ∨ geo_hit e s) ∧ industry_match e s = true)) := rfl
  rw [hform]
  constructor
  · rintro ((hc | hg) | ⟨_, hi⟩)
    · exact Or.inl hc
    · exact (hgeo hg).elim
    · exact Or.inr hi
  · rintro (hc | hi)
    · exact Or.inl (Or.inl hc)
    · by_cases hc2 : country_match e s = true
      · exact Or.inl (Or.inl hc2)
      · exact Or.inr ⟨fun hor => hor.elim hc2 hgeo, hi⟩

/-- Witness for C10: an incident whose stored latitude is exactly 0, with a
supplier at the same point (distance 0, well within the radius), country and
industry not matching — the supplier is nevertheless not affected. -/
theorem c10_witness :
    ((⟨"France", "", some 0, some 7, 500, []⟩ : MEvent).lat = some 0 ∨
      (⟨"France", "", some 0, some 7, 500, []⟩ : MEvent).lon = some 0 ∨
      (⟨9, "Germany", "", "Electronics", some 0, some 7⟩ : MSupplier).lat = some 0 ∨
      (⟨9, "Germany", "", "Electronics", some 0, some 7⟩ : MSupplier).lat = none ∨
      (⟨9, "Germany", "", "Electronics", some 0, some 7⟩ : MSupplier).lon = some 0 ∨
      (⟨9, "Germany", "", "Electronics", some 0, some 7⟩ : MSupplier).lon = none) ∧
    (match_is_affected ⟨"France", "", some 0, some 7, 500, []⟩
        ⟨9, "Germany", "", "Electronics", some 0, some 7⟩ ↔
      (country_match ⟨"France", "", some 0, some 7, 500, []⟩
          ⟨9, "Germany", "", "Electronics", some 0, some 7⟩ = true ∨
       industry_match ⟨"France", "", some 0, some 7, 500, []⟩
          ⟨9, "Germany", "", "Electronics", some 0, some 7⟩ = true)) :=
  ⟨Or.inl rfl, c10_zero_coords_skip_geo_check _ _ (Or.inl rfl)⟩

/-- C8 counterexample: a supplier whose country matches but whose city does
not can still receive proximity_score 1.0 (not 0.8) when it sits at the
incident epicenter, because the geographic check raises the score with
`max(current, 1 - distance/radius)`. -/
theorem c8_counterexample :
    country_match ⟨"Taiwan", "Taipei", some 24, some 121, 500, []⟩
        ⟨1, "taiwan", "Hsinchu", "Electronics", some 24, some 121⟩ = true ∧
    city_match ⟨"Taiwan", "Taipei", some 24, some 121, 500, []⟩
        ⟨1, "taiwan", "Hsinchu", "Electronics", some 24, some 121⟩ = false ∧
    match_proximity ⟨"Taiwan", "Taipei", some 24, some 121, 500, []⟩
        ⟨1, "taiwan", "Hsinchu", "Electronics", some 24, some 121⟩ = 1 := by
  classical
  have hc : country_match ⟨"Taiwan", "Taipei", some 24, some 121, 500, []⟩
      ⟨1, "taiwan", "Hsinchu", "Electronics", some 24, some 121⟩ = true := by decide
  have hcity : city_match ⟨"Taiwan", "Taipei", some 24, some 121, 500, []⟩
      ⟨1, "taiwan", "Hsinchu", "Electronics", some 24, some 121⟩ = false := by decide
  have hdist : supplier_distance ⟨"Taiwan", "Taipei", some 24, some 121, 500, []⟩
      ⟨1, "taiwan", "Hsinchu", "Electronics", some 24, some 121⟩ = 0 :=
    calculate_distance_self 24 121
  have hgr : geo_ready ⟨"Taiwan", "Taipei", some 24, some 121, 500, []⟩
      ⟨1, "taiwan", "Hsinchu", "Electronics", some 24, some 121⟩ :=
    ⟨(by norm_num : (24:ℝ) ≠ 0), (by norm_num : (121:ℝ) ≠ 0),
     (by norm_num : (24:ℝ) ≠ 0), (by norm_num : (121:ℝ) ≠ 0)⟩
  have hg : geo_hit ⟨"Taiwan", "Taipei", some 24, some 121, 500, []⟩
      ⟨1, "taiwan", "Hsinchu", "Electronics", some 24, some 121⟩ :=
    ⟨hgr, by rw [hdist]; exact (by norm_num : (0:ℝ) ≤ 500)⟩
  refine ⟨hc, hcity, ?_⟩
  have hform : match_proximity ⟨"Taiwan", "Taipei", some 24, some 121, 500, []⟩
      ⟨1, "taiwan", "Hsinchu", "Electronics", some 24, some 121⟩ =
      (if ¬(country_match ⟨"Taiwan", "Taipei", some 24, some 121, 500, []⟩
            ⟨1, "taiwan", "Hsinchu", "Electronics", some 24, some 121⟩ = true ∨
          geo_hit ⟨"Taiwan", "Taipei", some 24, some 121, 500, []⟩
            ⟨1, "taiwan", "Hsinchu", "Electronics", some 24, some 121⟩) ∧
          industry_match ⟨"Taiwan", "Taipei", some 24, some 121, 500, []⟩
            ⟨1, "taiwan", "Hsinchu", "Electronics", some 24, some 121⟩ = true
        then (0.5 : ℝ)
        else if geo_hit ⟨"Taiwan", "Taipei", some 24, some 121, 500, []⟩
            ⟨1, "taiwan", "Hsinchu", "Electronics", some 24, some 121⟩ then
          max (if country_match ⟨"Taiwan", "Taipei", some 24, some 121, 500, []⟩
              ⟨1, "taiwan", "Hsinchu", "Electronics", some 24, some 121⟩ then
              (if city_match ⟨"Taiwan", "Taipei", some 24, some 121, 500, []⟩
                ⟨1, "taiwan", "Hsinchu", "Electronics", some 24, some 121⟩ then 1.0 else 0.8)
            else 0)
            (1 - supplier_distance ⟨"Taiwan", "Taipei", some 24, some 121, 500, []⟩
              ⟨1, "taiwan", "Hsinchu", "Electronics", some 24, some 121⟩ /
              (⟨"Taiwan", "Taipei", some 24, some 121, 500, []⟩ : MEvent).radius)
        else (if country_match ⟨"Taiwan", "Taipei", some 24, some 121, 500, []⟩
            ⟨1, "taiwan", "Hsinchu", "Electronics", some 24, some 121⟩ then
            (if city_match ⟨"Taiwan", "Taipei", some 24, some 121, 500, []⟩
              ⟨1, "taiwan", "Hsinchu", "Electronics", some 24, some 121⟩ then 1.0 else 0.8)
          else 0)) := rfl
  rw [hform, if_neg (fun hcon => hcon.1 (Or.inl hc)), if_pos hg]
  simp only [hc, hcity, if_true, Bool.false_eq_true, if_false]
  rw [hdist]
  rw [max_eq_right (by norm_num : (0.8:ℝ) ≤ 1 - 0 /
    (⟨"Taiwan", "Taipei", some 24, some 121, 500, []⟩ : MEvent).radius)]
  norm_num

/-- C8 (amended): if the country matches and the city also matches, the
proximity score is 1.0; if the country matches but the city does not, the
proximity score is 0.8 provided the geographic-proximity check does not
produce a larger value (in particular whenever either party lacks truthy
coordinates); with a matching city the score stays 1.0 even when the
geographic check fires, since its value never exceeds 1. -/
theorem c8_proximity_country_city :
    ∀ (e : MEvent) (s : MSupplier),
      0 < e.radius →
      country_match e s = true →
      ((city_match e s = true → match_proximity e s = 1) ∧
       (city_match e s = false →
         (geo_hit e s → 1 - supplier_distance e s / e.radius ≤ 0.8) →
         match_proximity e s = 0.8)) := by
  intro e s hr hc
  classical
  have hd : 0 ≤ supplier_distance e s := calculate_distance_nonneg _ _ _ _
  have hform : match_proximity e s =
      (if ¬(country_match e s = true ∨ geo_hit e s) ∧ industry_match e s = true
        then (0.5 : ℝ)
        else if geo_hit e s then
          max (if country_match e s then (if city_match e s then 1.0 else 0.8) else 0)
            (1 - supplier_distance e s / e.radius)
        else (if country_match e s then (if city_match e s then 1.0 else 0.8) else 0)) := rfl
  have ha2 : (country_match e s = true ∨ geo_hit e s) := Or.inl hc
  rw [hform, if_neg (fun hcon => hcon.1 ha2)]
  constructor
  · intro hcity
    simp only [hc, hcity, if_true]
    by_cases hg : geo_hit e s
    · rw [if_pos hg, max_eq_left (by
        have h0 : 0 ≤ supplier_distance e s / e.radius := div_nonneg hd hr.le
        norm_num
        linarith)]
      norm_num
    · rw [if_neg hg]
      norm_num
  · intro hcity hbound
    simp only [hc, hcity, if_true, Bool.false_eq_true, if_false]
    by_cases hg : geo_hit e s
    · rw [if_pos hg, max_eq_left (hbound hg)]
    · rw [if_neg hg]

/-- Witness for C8 at a concrete event and supplier: matching country,
non-matching city, no stored coordinates. -/
theorem c8_witness :
    0 < (⟨"france", "paris", none, none, 500, []⟩ : MEvent).radius ∧
    country_match ⟨"france", "paris", none, none, 500, []⟩
      ⟨2, "France", "Lyon", "Logistics", none, none⟩ = true ∧
    ((city_match ⟨"france", "paris", none, none, 500, []⟩
        ⟨2, "France", "Lyon", "Logistics", none, none⟩ = true →
      match_proximity ⟨"france", "paris", none, none, 500, []⟩
        ⟨2, "France", "Lyon", "Logistics", none, none⟩ = 1) ∧
     (city_match ⟨"france", "paris", none, none, 500, []⟩
        ⟨2, "France", "Lyon", "Logistics", none, none⟩ = false →
      (geo_hit ⟨"france", "paris", none, none, 500, []⟩
          ⟨2, "France", "Lyon", "Logistics", none, none⟩ →
        1 - supplier_distance ⟨"france", "paris", none, none, 500, []⟩
            ⟨2, "France", "Lyon", "Logistics", none, none⟩ /
          (⟨"france", "paris", none, none, 500, []⟩ : MEvent).radius ≤ 0.8) →
      match_proximity ⟨"france", "paris", none, none, 500, []⟩
        ⟨2, "France", "Lyon", "Logistics", none, none⟩ = 0.8)) :=
  ⟨(by norm_num : (0:ℝ) < 500), by decide,
   c8_proximity_country_city ⟨"france", "paris", none, none, 500, []⟩
     ⟨2, "France", "Lyon", "Logistics", none, none⟩
     (by norm_num : (0:ℝ) < 500) (by decide)⟩

/-- C9 counterexample: `rank_alternative_suppliers` itself does not exclude
the affected supplier — handed a candidate pool containing the affected
supplier (id 7), it returns a record with that same supplier id.  (The
exclusion is performed by the caller, which filters the pool first.) -/
theorem c9_counterexample :
    (⟨7, "Acme", "US", 1, 10, 90, 50, none, none⟩ : AltSupplier).id = 7 ∧
    ((rank_alternative_suppliers [⟨7, "Acme", "US", 1, 10, 90, 50, none, none⟩]
        ⟨7, "Acme", "US", 1, 10, 90, 50, none, none⟩ none 3).map
      AltScore.supplier_id) = [7] := by
  refine ⟨rfl, ?_⟩
  simp only [rank_alternative_suppliers, List.map_cons, List.map_nil,
    List.mergeSort_singleton, List.take_succ_cons, List.take_nil]
  rfl

/-- C9 (amended): provided the candidate pool does not contain the affected
supplier id (which the caller `_find_alternative_suppliers` guarantees by
filtering), `rank_alternative_suppliers` never returns the affected supplier,
returns at most `top_n` records, returns them sorted by total_score
non-increasing, and maps an empty pool to an empty result. -/
theorem c9_rank_alternatives_spec :
    ∀ (alternatives : List AltSupplier) (affected : AltSupplier)
      (event_location : Option (ℝ × ℝ)) (top_n : ℕ),
      (∀ a ∈ alternatives, a.id ≠ affected.id) →
      ((∀ r ∈ rank_alternative_suppliers alternatives affected event_location top_n,
          r.supplier_id ≠ affected.id) ∧
       (rank_alternative_suppliers alternatives affected event_location top_n).length
          ≤ top_n ∧
       (rank_alternative_suppliers alternatives affected event_location top_n).Pairwise
          (fun a b => b.total_score ≤ a.total_score) ∧
       rank_alternative_suppliers [] affected event_location top_n = []) := by
  intro alternatives affected event_location top_n hids
  refine ⟨?_, ?_, ?_, ?_⟩
  · intro r hr
    have hr1 : r ∈ (alternatives.map
        (fun alt => score_alternative_supplier alt affected event_location)).mergeSort
          score_ge :=
      List.mem_of_mem_take hr
    have hr2 : r ∈ alternatives.map
        (fun alt => score_alternative_supplier alt affected event_location) :=
      List.mem_mergeSort.mp hr1
    obtain ⟨a, ha, rfl⟩ := List.mem_map.mp hr2
    exact hids a ha
  · have := List.length_take top_n ((alternatives.map
      (fun alt => score_alternative_supplier alt affected event_location)).mergeSort
        score_ge)
    calc (rank_alternative_suppliers alternatives affected event_location top_n).length
        = min top_n _ := this
      _ ≤ top_n := min_le_left _ _
  · have hsorted := @List.sorted_mergeSort AltScore score_ge
      (fun a b c hab hbc => by
        simp only [score_ge, decide_eq_true_eq] at *
        exact le_trans hbc hab)
      (fun a b => by
        simp only [score_ge, Bool.or_eq_true, decide_eq_true_eq]
        exact le_total _ _)
      (alternatives.map (fun alt => score_alternative_supplier alt affected event_location))
    have hpw : ((alternatives.map
        (fun alt => score_alternative_supplier alt affected event_location)).mergeSort
          score_ge).Pairwise (fun a b => b.total_score ≤ a.total_score) :=
      hsorted.imp (fun hab => by simpa [score_ge] using hab)
    exact hpw.sublist (List.take_sublist _ _)
  · simp [rank_alternative_suppliers]

/-- Witness for C9 at a concrete pool that excludes the affected supplier. -/
theorem c9_witness :
    (∀ a ∈ ([⟨8, "Beta", "DE", 2, 5, 80, 40, none, none⟩] : List AltSupplier),
      a.id ≠ (⟨7, "Acme", "US", 1, 10, 90, 50, none, none⟩ : AltSupplier).id) ∧
    ((∀ r ∈ rank_alternative_suppliers [⟨8, "Beta", "DE", 2, 5, 80, 40, none, none⟩]
        ⟨7, "Acme", "US", 1, 10, 90, 50, none, none⟩ none 3,
        r.supplier_id ≠ (⟨7, "Acme", "US", 1, 10, 90, 50, none, none⟩ : AltSupplier).id) ∧
     (rank_alternative_suppliers [⟨8, "Beta", "DE", 2, 5, 80, 40, none, none⟩]
        ⟨7, "Acme", "US", 1, 10, 90, 50, none, none⟩ none 3).length ≤ 3 ∧
     (rank_alternative_suppliers [⟨8, "Beta", "DE", 2, 5, 80, 40, none, none⟩]
        ⟨7, "Acme", "US", 1, 10, 90, 50, none, none⟩ none 3).Pairwise
        (fun a b => b.total_score ≤ a.total_score) ∧
     rank_alternative_suppliers []
        ⟨7, "Acme", "US", 1, 10, 90, 50, none, none⟩ none 3 = []) := by
  have hids : ∀ a ∈ ([⟨8, "Beta", "DE", 2, 5, 80, 40, none, none⟩] : List AltSupplier),
      a.id ≠ (⟨7, "Acme", "US", 1, 10, 90, 50, none, none⟩ : AltSupplier).id := by
    intro a ha
    rw [List.mem_singleton] at ha
    subst ha
    decide
  exact ⟨hids, c9_rank_alternatives_spec [⟨8, "Beta", "DE", 2, 5, 80, 40, none, none⟩]
    ⟨7, "Acme", "US", 1, 10, 90, 50, none, none⟩ none 3 hids⟩
